import Mathlib

/-!
# Verification of `anki_heatmap.py`

A shallow embedding of the pure logic of the Anki heatmap desktop widget
(`src/anki_heatmap.py`) together with theorems settling the specification
claims about it.

Modelling conventions:

* Calendar dates are represented by their epoch day number (days since
  1970-01-01), exactly the `day` bucket the Python code manipulates
  (`CAST(id/1000 AS INTEGER)/86400`).  The code converts a day number to an
  ISO string `"%Y-%m-%d"` with `fromtimestamp(day * 86400).strftime(...)`
  and parses it back with `strptime`; on valid dates these are mutually
  inverse and lexicographic order of ISO strings agrees with numeric order
  of day numbers, so dictionary keys are taken to be day numbers directly.
* The `DailyCount` dictionary `self.review_counts` is modelled as an
  association list with (in claims that need it) a `Nodup` key hypothesis,
  which is what a Python `dict` guarantees.
* Machine timestamps are unbounded `Int`; the SQLite integer division in
  the query truncates toward zero, which is `Int.tdiv`.
-/

/-- Gregorian year of an epoch day number (days since 1970-01-01), the
standard civil-from-days algorithm; this embeds
`datetime.datetime.fromtimestamp(day * 86400).year` for a UTC clock.  All
intermediate divisions below act on nonnegative operands for any day number
of the years relevant here, where every integer-division convention
agrees. -/
def yearOf (z : Int) : Int :=
  let z' := z + 719468
  let era := (if 0 ≤ z' then z' else z' - 146096) / 146097
  let doe := z' - era * 146097
  let yoe := (doe - doe / 1460 + doe / 36524 - doe / 146096) / 365
  let y := yoe + era * 400
  let doy := doe - (365 * yoe + yoe / 4 - yoe / 100)
  let mp := (5 * doy + 2) / 153
  let m := mp + (if mp < 10 then 3 else -9)
  if m ≤ 2 then y + 1 else y

/-- Epoch day number of 2025-01-01 (`datetime.datetime(2025, 1, 1).date()`). -/
def jan1_2025 : Int := 20089

/-- Epoch day number of 2025-02-26, the hard-coded fallback "today"
(`datetime.datetime(2025, 2, 26).date()`). -/
def feb26_2025 : Int := 20145

/-- Python `date.weekday()` (Monday = 0 … Sunday = 6) of an epoch day
number; 1970-01-01 was a Thursday (weekday 3). -/
def weekdayOf (d : Int) : Int := (d + 3) % 7

/-- The `self.review_counts` dictionary: date (epoch day number) ↦ review
count, as an association list. -/
abbrev DailyCount := List (Int × Nat)

/-- The key list of a `DailyCount` mapping. -/
def keys (m : DailyCount) : List Int := m.map Prod.fst

/-- Python dictionary lookup `m.get(d)` on an association list. -/
def lookup (m : DailyCount) (d : Int) : Option Nat :=
  (m.find? fun p => decide (p.1 = d)).map Prod.snd

/-- The loop condition of `calculate_current_streak`:
`date_str in self.review_counts and self.review_counts[date_str] > 0`. -/
def posAt (m : DailyCount) (d : Int) : Bool :=
  match lookup m d with
  | some c => decide (0 < c)
  | none => false

/-- The `for i in range(0, 30)` loop of `calculate_current_streak`
(`anki_heatmap.py` lines 255-262): starting at day offset `i` with `fuel`
iterations left, count consecutive offsets whose date is present with a
positive count, stopping at the first failure (`break`). -/
def runFrom (m : DailyCount) (today : Int) : Nat → Nat → Nat
  | _, 0 => 0
  | i, fuel + 1 =>
    if posAt m (today - (i : Int)) then 1 + runFrom m today (i + 1) fuel else 0

/-- `calculate_current_streak` (lines 247-264), parameterised by the value
of `datetime.datetime.now().date()`.  Note the source uses the raw current
date here: no 2025 fallback substitution is applied in this function. -/
def calculate_current_streak (m : DailyCount) (now : Int) : Nat :=
  if m = [] then 0 else runFrom m now 0 30

/-- The `for i in range(1, len(dates))` loop of `calculate_longest_streak`
(lines 279-289), carrying the previous date, the remaining sorted dates,
`max_streak` and `current_streak`; the base case is the final
`max_streak = max(max_streak, current_streak)`. -/
def streakLoop : Int → List Int → Nat → Nat → Nat
  | _, [], maxS, curS => max maxS curS
  | prev, d :: rest, maxS, curS =>
    if d - prev = 1 then streakLoop d rest maxS (curS + 1)
    else streakLoop d rest (max maxS curS) 1

/-- Body of `calculate_longest_streak` on the sorted date list:
`if not dates: return 0` and otherwise the scan starting from
`max_streak = 0`, `current_streak = 1`. -/
def longestOf : List Int → Nat
  | [] => 0
  | d :: rest => streakLoop d rest 0 1

/-- `calculate_longest_streak` (lines 266-290): guard the empty dictionary,
sort the keys (`dates = sorted(self.review_counts.keys())`), then scan for
gaps of exactly one day.  The scan reads only the keys, never the counts. -/
def calculate_longest_streak (m : DailyCount) : Nat :=
  if m = [] then 0 else longestOf (List.insertionSort (· ≤ ·) (keys m))

/-- The `today` value used by `calculate_current_streak` (line 253):
`datetime.datetime.now().date()`, with no year substitution. -/
def today_in_current_streak (now : Int) : Int := now

/-- The `today` value used by `update_date_range_label` (lines 294-299):
the current date, replaced by 2025-02-26 when its year is not 2025. -/
def today_in_date_range_label (now : Int) : Int :=
  if yearOf now ≠ 2025 then feb26_2025 else now

/-- The `today` value used by `update_stats_label` (lines 310-313). -/
def today_in_stats_label (now : Int) : Int :=
  if yearOf now ≠ 2025 then feb26_2025 else now

/-- The `today` value used by `on_heatmap_motion` as the tooltip upper
bound (lines 363-367). -/
def today_in_heatmap_motion (now : Int) : Int :=
  if yearOf now ≠ 2025 then feb26_2025 else now

/-- The `today` value used by `get_days_in_2025` (lines 394-399). -/
def today_in_days_in_2025 (now : Int) : Int :=
  if yearOf now ≠ 2025 then feb26_2025 else now

/-- The `today` value used by `draw_heatmap` (lines 475-479). -/
def today_in_draw_heatmap (now : Int) : Int :=
  if yearOf now ≠ 2025 then feb26_2025 else now

/-- `get_days_in_2025` (lines 392-402): days from 2025-01-01 through the
effective today, inclusive. -/
def get_days_in_2025 (now : Int) : Int :=
  (today_in_days_in_2025 now - jan1_2025) + 1

/-- `days_to_show = min(self.get_days_in_2025(), 105)`, as computed in both
`draw_heatmap` (line 463) and `on_heatmap_motion` (line 335). -/
def days_to_show (now : Int) : Int := min (get_days_in_2025 now) 105

/-- Column count used by `draw_heatmap` (line 464):
`cols = min(days_to_show // 7 + 1, width // 20)`. -/
def draw_cols (now width : Int) : Int :=
  min (days_to_show now / 7 + 1) (width / 20)

/-- Column count used by `on_heatmap_motion` (line 336):
`cols = min(days_to_show // 7, width // 20)` — note: no `+ 1` here. -/
def motion_cols (now width : Int) : Int :=
  min (days_to_show now / 7) (width / 20)

/-- Grid cell `(row, col)` assigned at draw time (lines 497-502) to the
date `i` days after 2025-01-01: `col = days_since_start // 7` and
`row = current_date.weekday()`. -/
def draw_cell (i : Int) : Int × Int := (weekdayOf (jan1_2025 + i), i / 7)

/-- Date recovered by the hit-testing inverse mapping in
`on_heatmap_motion` (lines 369-373): `week_number = cols - 1 - col`,
`day_of_week = row`, `cell_date = start_date + week_number*7 + day_of_week`. -/
def motion_cell_date (cols row col : Int) : Int :=
  jan1_2025 + ((cols - 1 - col) * 7 + row)

/-- `max_count` computed by `draw_heatmap` (lines 481-484): initialised to
1 and replaced by `max(self.review_counts.values())` whenever the
dictionary is nonempty. -/
def period_max_count (m : DailyCount) : Nat :=
  match m.map Prod.snd with
  | [] => 1
  | v :: vs => vs.foldl max v

/-- Cell intensity (line 511):
`intensity = min(1.0, count / max_count) if count > 0 else 0`, with real
arithmetic modelled by the rationals. -/
def intensity (count maxCount : Nat) : ℚ :=
  if 0 < count then min 1 ((count : ℚ) / (maxCount : ℚ)) else 0

/-- Cell colour (lines 511-515): a green whose green channel grows with
the intensity for positive counts, a fixed light gray for count zero. -/
def cell_color (count maxCount : Nat) : ℚ × ℚ × ℚ :=
  if 0 < count then (0.15, 0.4 + intensity count maxCount * 0.5, 0.15)
  else (0.9, 0.9, 0.9)

/-- Day bucket of a revlog `id` (epoch milliseconds), from the query
`CAST(id/1000 AS INTEGER)/86400 AS day` (line 199); SQLite integer
division truncates toward zero. -/
def dayFromId (i : Int) : Int := Int.tdiv (Int.tdiv i 1000) 86400

/-- The `GROUP BY day ... COUNT(*) ... ORDER BY day` part of the query
(lines 197-214): one row per distinct day value, ascending, with the
number of revlog rows in that bucket. -/
def groupByDay (days : List Int) : List (Int × Nat) :=
  (List.insertionSort (· ≤ ·) days.dedup).map fun d => (d, days.count d)

/-- Per-row conversion `datetime.datetime.fromtimestamp(day * 86400)`
(line 220): succeeds exactly when the resulting year is representable by
`datetime` (1 through 9999); otherwise `ValueError`/`OverflowError` is
raised, modelled by `none`. -/
def convertDay (day : Int) : Option Int :=
  if 1 ≤ yearOf day ∧ yearOf day ≤ 9999 then some day else none

/-- The row-processing loop of `load_anki_data` (lines 217-228): convert
each day bucket, skipping rows whose conversion fails (`except ...:
continue`), and keep only dates in 2025
(`if date_str.startswith("2025-")`). -/
def processRows (rs : List (Int × Nat)) : DailyCount :=
  rs.filterMap fun p =>
    match convertDay p.1 with
    | none => none
    | some d => if yearOf d = 2025 then some (d, p.2) else none

/-- Environment of one `load_anki_data` run: whether
`find_anki_collection` found a file, whether the `revlog` table exists,
which schema branch the column probe selects, the raw column contents, and
an optionally injected database failure (any exception raised by the
sqlite machinery inside the `try` block). -/
structure LoadEnv where
  collectionFound : Bool
  tableExists : Bool
  hasIdColumn : Bool
  idColumn : List Int
  dayColumn : List Int
  fault : Option String

/-- The four user-visible outcomes of `load_anki_data`: the "collection
not found" label, the "revlog table not found" label, the caught-exception
error label, and a successful load. -/
inductive LoadStatus where
  | collectionNotFound
  | revlogNotFound
  | errorMsg (msg : String)
  | loaded
deriving DecidableEq

/-- `load_anki_data` (lines 165-245): returns the dictionary built
together with the status surfaced on the stats label.  Every branch
returns normally — the `try`/`except` is embedded structurally, so no
failure escapes as an exception. -/
def load_anki_data (env : LoadEnv) : DailyCount × LoadStatus :=
  if env.collectionFound = false then ([], .collectionNotFound)
  else if env.tableExists = false then ([], .revlogNotFound)
  else
    match env.fault with
    | some msg => ([], .errorMsg msg)
    | none =>
      let days := if env.hasIdColumn then env.idColumn.map dayFromId
                  else env.dayColumn
      (processRows (groupByDay days), .loaded)

/-- The possible effects of the `__main__` block (lines 674-684). -/
inductive MainAction where
  | installDesklet
  | setupAutostart
  | runWidget
  | noAction
deriving DecidableEq

/-- The `__main__` dispatch (lines 674-684): with no extra argument the
interactive widget runs; otherwise `argv[1]` selects `--install` or
`--autostart`, and any other first argument falls through both `if`s with
no `else`, so nothing at all happens. -/
def main_dispatch (argv : List String) : MainAction :=
  match argv with
  | _ :: a :: _ =>
    if a = "--install" then .installDesklet
    else if a = "--autostart" then .setupAutostart
    else .noAction
  | _ => .runWidget

/-- The arithmetic run `s, s + 1, ..., s + j - 1`: a block of `j`
consecutive dates, used to describe a run inside the sorted key list. -/
def chainL : Int → Nat → List Int
  | _, 0 => []
  | s, j + 1 => s :: chainL (s + 1) j

/-- The C1 scenario mapping
`{"2025-01-01": 3, "2025-01-02": 5, "2025-01-03": 0, "2025-01-05": 2}`. -/
def c1_map : DailyCount := [(20089, 3), (20090, 5), (20091, 0), (20093, 2)]

/-! ## Helper lemmas -/

/-- The initial accumulator is a lower bound of a left fold by `max`. -/
theorem le_foldl_max (v : Nat) (vs : List Nat) : v ≤ vs.foldl max v := by
  induction vs generalizing v with
  | nil => exact le_rfl
  | cons w ws ih => exact le_trans (le_max_left v w) (ih (max v w))

/-! ## Claims -/

/-- C1 (counterexample): on the scenario mapping with effective today
2025-01-05, the code's longest-streak computation returns 3, not 2: the
sorted-keys scan never consults counts, so the zero-count day 2025-01-03
extends the run Jan 1 - Jan 3.  Hence the claimed pair (current = 1,
longest = 2) is false for the code. -/
theorem c1_claim_false :
    ¬ (calculate_current_streak c1_map 20093 = 1 ∧
       calculate_longest_streak c1_map = 2) := by
  decide

/-- C1 (amended): on the scenario mapping with effective today 2025-01-05,
the current-streak computation returns 1 (2025-01-04 is absent) and the
longest-streak computation returns 3 (Jan 1 - Jan 3, since the scan looks
only at which dates are present, counting the zero-count 2025-01-03). -/
theorem c1_amended_holds :
    calculate_current_streak c1_map 20093 = 1 ∧
    calculate_longest_streak c1_map = 3 := by
  decide

/-- C2: the claim fails in the code.  At an actual current date outside
2025 (here 2026-01-01, epoch day 20454), the date-range label, stats
label, tooltip bound, day-window and renderer all substitute the fallback
2025-02-26, but `calculate_current_streak` keeps the raw current date, so
not every "today" site uses the same effective-today value. -/
theorem c2_today_sites_disagree :
    today_in_date_range_label 20454 = feb26_2025 ∧
    today_in_stats_label 20454 = feb26_2025 ∧
    today_in_heatmap_motion 20454 = feb26_2025 ∧
    today_in_days_in_2025 20454 = feb26_2025 ∧
    today_in_draw_heatmap 20454 = feb26_2025 ∧
    today_in_current_streak 20454 ≠ feb26_2025 := by
  decide

/-- C3: the claim fails in the code.  With effective today 2025-02-26 (a
57-day window, hit-test column count 8 at the default 380-pixel width),
the date 2025-01-01 (offset 0) is drawn at (row 2, col 0), but the
hit-testing inverse of (row 2, col 0) is 2025-02-21 (offset 51): draw time
counts week columns from the left and uses the calendar weekday as the
row, while hit-testing counts week columns from the right and treats the
row as a day offset from January 1, so the round trip does not recover the
original date even though offset 51 lies inside the active window. -/
theorem c3_roundtrip_fails :
    days_to_show 20454 = 57 ∧
    motion_cols 20454 380 = 8 ∧
    draw_cell 0 = (2, 0) ∧
    motion_cell_date (motion_cols 20454 380) 2 0 = jan1_2025 + 51 ∧
    jan1_2025 + 51 ≠ jan1_2025 + 0 ∧
    jan1_2025 + 51 ≤ feb26_2025 := by
  decide

/-- C10: whenever the first command-line argument (`argv[1]`) is neither
`--install` nor `--autostart`, the `__main__` dispatch falls through both
branches of the inner `if` and performs no action: it neither installs the
desklet, nor writes the autostart entry, nor starts the interactive
widget. -/
theorem c10_unknown_arg_no_action (p a : String) (rest : List String)
    (h1 : a ≠ "--install") (h2 : a ≠ "--autostart") :
    main_dispatch (p :: a :: rest) = MainAction.noAction := by
  simp [main_dispatch, h1, h2]

/-- C10 witness: invoking with the single unrecognized argument `--foo`
performs no action. -/
theorem c10_unknown_arg_no_action_witness :
    ("--foo" : String) ≠ "--install" ∧ ("--foo" : String) ≠ "--autostart" ∧
    main_dispatch ["anki_heatmap.py", "--foo"] = MainAction.noAction :=
  ⟨by decide, by decide,
   c10_unknown_arg_no_action "anki_heatmap.py" "--foo" [] (by decide) (by decide)⟩

/-- C5 (counterexample): the period maximum is not floored at 1.  The code
initialises `max_count = 1` but unconditionally overwrites it with
`max(self.review_counts.values())` for any nonempty mapping, so the
nonempty mapping `{2025-01-01: 0}` yields a period maximum of 0. -/
theorem c5_floor_claim_false :
    period_max_count [((20089 : Int), 0)] = 0 ∧
    ¬ 1 ≤ period_max_count [((20089 : Int), 0)] := by
  decide

/-- C5 (amended): for a fixed period maximum at least 1, the renderer's
intensity is monotone non-decreasing in the day's count; a zero-count day
is rendered in exactly the fixed neutral colour (0.9, 0.9, 0.9); and the
period maximum is 1 for an empty mapping and the maximum stored value
otherwise — hence at least 1 whenever every stored value is (it is not
floored at 1 for mappings that contain a zero value). -/
theorem c5_color_monotone_neutral_amended :
    (∀ maxC c₁ c₂ : Nat, 1 ≤ maxC → c₁ ≤ c₂ →
      intensity c₁ maxC ≤ intensity c₂ maxC) ∧
    (∀ maxC : Nat, cell_color 0 maxC = (9/10, 9/10, 9/10)) ∧
    period_max_count [] = 1 ∧
    (∀ m : DailyCount, (∀ p ∈ m, 1 ≤ p.2) → 1 ≤ period_max_count m) := by
  refine ⟨?_, ?_, rfl, ?_⟩
  · intro maxC c₁ c₂ hM h
    have hM0 : (0 : ℚ) < (maxC : ℚ) := by exact_mod_cast hM
    unfold intensity
    rcases Nat.eq_zero_or_pos c₁ with h₁ | h₁
    · subst h₁
      rw [if_neg (by omega)]
      rcases Nat.eq_zero_or_pos c₂ with h₂ | h₂
      · subst h₂; rw [if_neg (by omega)]
      · rw [if_pos h₂]
        exact le_min (by norm_num) (by positivity)
    · rw [if_pos h₁, if_pos (by omega)]
      refine min_le_min le_rfl ?_
      have hc : (c₁ : ℚ) ≤ (c₂ : ℚ) := by exact_mod_cast h
      gcongr
  · intro maxC
    simp [cell_color]
    norm_num
  · intro m hm
    unfold period_max_count
    cases hmap : m.map Prod.snd with
    | nil => exact le_rfl
    | cons v vs =>
      have hv : 1 ≤ v := by
        have : v ∈ m.map Prod.snd := by rw [hmap]; exact List.mem_cons_self v vs
        rcases List.mem_map.mp this with ⟨p, hp, hpv⟩
        exact hpv ▸ hm p hp
      calc 1 ≤ v := hv
        _ ≤ vs.foldl max v := le_foldl_max v vs

/-- C5 witness: with period maximum 1, the intensity at count 0 is at most
the intensity at count 5, and a zero-count cell with period maximum 5 is
the neutral colour. -/
theorem c5_color_witness :
    intensity 0 1 ≤ intensity 5 1 ∧ cell_color 0 5 = (9/10, 9/10, 9/10) :=
  ⟨c5_color_monotone_neutral_amended.1 1 0 5 le_rfl (by omega),
   c5_color_monotone_neutral_amended.2.1 5⟩

/-- C6: error handling of the aggregation.  A missing collection file
yields the empty mapping and the "not found" notice; a missing `revlog`
table yields the empty mapping and its notice; any other failure inside
the `try` block is caught and surfaced as an error-label message with an
empty mapping (the function returns normally on every branch, so no
exception propagates); and a row whose day value fails date conversion is
skipped individually while the remaining rows are still aggregated. -/
theorem c6_error_handling :
    (∀ env : LoadEnv, env.collectionFound = false →
      load_anki_data env = ([], LoadStatus.collectionNotFound)) ∧
    (∀ env : LoadEnv, env.collectionFound = true → env.tableExists = false →
      load_anki_data env = ([], LoadStatus.revlogNotFound)) ∧
    (∀ (env : LoadEnv) (msg : String), env.collectionFound = true →
      env.tableExists = true → env.fault = some msg →
      load_anki_data env = ([], LoadStatus.errorMsg msg)) ∧
    (∀ (d : Int) (c : Nat) (rest : List (Int × Nat)), convertDay d = none →
      processRows ((d, c) :: rest) = processRows rest) := by
  refine ⟨?_, ?_, ?_, ?_⟩
  · intro env h
    simp [load_anki_data, h]
  · intro env h1 h2
    simp [load_anki_data, h1, h2]
  · intro env msg h1 h2 h3
    simp [load_anki_data, h1, h2, h3]
  · intro d c rest h
    simp [processRows, h]

/-- C6 witness: a run with no collection file returns the empty mapping
and the "collection not found" notice. -/
theorem c6_error_handling_witness :
    load_anki_data ⟨false, true, true, [], [], none⟩ =
      ([], LoadStatus.collectionNotFound) :=
  c6_error_handling.1 ⟨false, true, true, [], [], none⟩ rfl

/-- C8: every count stored by the aggregator is at least 1.  Counts come
from the `COUNT(*)` of a `GROUP BY day` over the revlog rows, so every
grouped day occurs in the row list and its count is positive; the
filtering loop only copies those counts, never inserting a zero. -/
theorem c8_counts_positive (env : LoadEnv) (p : Int × Nat)
    (hp : p ∈ (load_anki_data env).1) : 1 ≤ p.2 := by
  unfold load_anki_data at hp
  by_cases h1 : env.collectionFound = false
  · simp [h1] at hp
  · rw [if_neg h1] at hp
    by_cases h2 : env.tableExists = false
    · simp [h2] at hp
    · rw [if_neg h2] at hp
      cases hf : env.fault with
      | some msg => rw [hf] at hp; simp at hp
      | none =>
        rw [hf] at hp
        simp only [processRows, List.mem_filterMap] at hp
        obtain ⟨q, hq, hqp⟩ := hp
        have hq2 : q.2 = p.2 := by
          rcases hcv : convertDay q.1 with _ | d <;> simp only [hcv] at hqp
          · exact absurd hqp (by simp)
          · by_cases hy : yearOf d = 2025
            · rw [if_pos hy] at hqp
              injection hqp with h3
              rw [← h3]
            · rw [if_neg hy] at hqp
              exact absurd hqp (by simp)
        rw [← hq2]
        simp only [groupByDay, List.mem_map] at hq
        obtain ⟨d, hd, hdq⟩ := hq
        have hd' : d ∈ (if env.hasIdColumn = true then
            List.map dayFromId env.idColumn else env.dayColumn) := by
          rw [List.mem_dedup.symm]
          exact (List.perm_insertionSort (· ≤ ·) _).mem_iff.mp hd
        have : 0 < (if env.hasIdColumn = true then
            List.map dayFromId env.idColumn else env.dayColumn).count d :=
          List.count_pos_iff.mpr hd'
        rw [← hdq]
        exact this

/-- C8 witness: loading a database with one revlog row whose `id` lies on
the 2025-01-12 day bucket produces the single entry `(20100, 1)`, whose
count is at least 1. -/
theorem c8_counts_positive_witness :
    ((20100 : Int), 1) ∈
      (load_anki_data ⟨true, true, true, [1736640000000], [], none⟩).1 ∧
    1 ≤ (((20100 : Int), 1) : Int × Nat).2 :=
  ⟨by decide,
   c8_counts_positive ⟨true, true, true, [1736640000000], [], none⟩
     ((20100 : Int), 1) (by decide)⟩

/-- Helper: `calculate_longest_streak` depends only on the key list up to
permutation, since sorting maps permutation-equal lists to the same sorted
list. -/
theorem longest_eq_of_keys_perm {m₁ m₂ : DailyCount}
    (h : (keys m₁).Perm (keys m₂)) :
    calculate_longest_streak m₁ = calculate_longest_streak m₂ := by
  have hs : List.insertionSort (· ≤ ·) (keys m₁) =
      List.insertionSort (· ≤ ·) (keys m₂) :=
    List.eq_of_perm_of_sorted
      (((List.perm_insertionSort _ _).trans h).trans
        (List.perm_insertionSort _ _).symm)
      (List.sorted_insertionSort _ _) (List.sorted_insertionSort _ _)
  have hlen : m₁.length = m₂.length := by
    have := h.length_eq
    simpa [keys] using this
  unfold calculate_longest_streak
  by_cases h1 : m₁ = []
  · subst h1
    have h2 : m₂ = [] := by
      rw [← List.length_eq_zero, ← hlen]
      rfl
    rw [h2]
  · have h2 : m₂ ≠ [] := by
      intro h2
      exact h1 (List.length_eq_zero.mp (by rw [hlen, h2]; rfl))
    rw [if_neg h1, if_neg h2, hs]

/-- C7: the longest-streak computation is invariant to the order in which
the date/count pairs are supplied — permuting the input mapping leaves the
result unchanged, because the pre-sort of the keys neutralizes the input
order. -/
theorem c7_longest_order_invariant (m₁ m₂ : DailyCount) (h : m₁.Perm m₂) :
    calculate_longest_streak m₁ = calculate_longest_streak m₂ :=
  longest_eq_of_keys_perm (h.map Prod.fst)

/-- C7 witness: the two-entry mapping supplied in either order yields the
same longest streak. -/
theorem c7_longest_order_invariant_witness :
    ([((20089 : Int), 1), ((20090 : Int), 2)] : DailyCount).Perm
      [(20090, 2), (20089, 1)] ∧
    calculate_longest_streak [((20089 : Int), 1), ((20090 : Int), 2)] =
      calculate_longest_streak [(20090, 2), (20089, 1)] :=
  ⟨by decide,
   c7_longest_order_invariant [(20089, 1), (20090, 2)] [(20090, 2), (20089, 1)]
     (by decide)⟩

/-- C9: the longest-streak computation depends only on the set of dates
present in the mapping, not on the stored counts: two mappings with the
same key set (zero-count entries included) give identical results, since
the scan reads only the sorted key list. -/
theorem c9_longest_depends_only_on_keys (m₁ m₂ : DailyCount)
    (h₁ : (keys m₁).Nodup) (h₂ : (keys m₂).Nodup)
    (h : ∀ d : Int, d ∈ keys m₁ ↔ d ∈ keys m₂) :
    calculate_longest_streak m₁ = calculate_longest_streak m₂ :=
  longest_eq_of_keys_perm ((List.perm_ext_iff_of_nodup h₁ h₂).mpr h)

/-- C9 witness: the singleton mappings `{2025-01-01: 3}` and
`{2025-01-01: 0}` share their key set and get the same longest streak. -/
theorem c9_longest_depends_only_on_keys_witness :
    (keys [((20089 : Int), 3)]).Nodup ∧ (keys [((20089 : Int), 0)]).Nodup ∧
    calculate_longest_streak [((20089 : Int), 3)] =
      calculate_longest_streak [((20089 : Int), 0)] :=
  ⟨by decide, by decide,
   c9_longest_depends_only_on_keys [(20089, 3)] [(20089, 0)]
     (by decide) (by decide) (fun _ => Iff.rfl)⟩

/-- Helper: one step of the longest-streak scan; after consuming one date
the running streak is at least 1 in either branch. -/
theorem streakLoop_step (prev y : Int) (l : List Int) (maxS curS : Nat) :
    ∃ maxS' curS', streakLoop prev (y :: l) maxS curS =
      streakLoop y l maxS' curS' ∧ 1 ≤ curS' := by
  by_cases h : y - prev = 1
  · exact ⟨maxS, curS + 1, by simp [streakLoop, h], by omega⟩
  · exact ⟨max maxS curS, 1, by simp [streakLoop, h], le_rfl⟩

/-- Helper: the longest-streak scan never drops below the maximum of its
accumulators. -/
theorem max_le_streakLoop (l : List Int) : ∀ (prev : Int) (maxS curS : Nat),
    max maxS curS ≤ streakLoop prev l maxS curS := by
  induction l with
  | nil => intro prev maxS curS; exact le_rfl
  | cons d rest ih =>
    intro prev maxS curS
    simp only [streakLoop]
    split
    · exact le_trans (max_le_max le_rfl (Nat.le_succ curS)) (ih d maxS (curS + 1))
    · exact le_trans (le_max_left (max maxS curS) 1) (ih d (max maxS curS) 1)

/-- Helper: scanning a block of consecutive dates adds its length to the
running streak. -/
theorem streakLoop_chainL (j : Nat) :
    ∀ (s : Int) (rest : List Int) (maxS curS : Nat),
      streakLoop s (chainL (s + 1) j ++ rest) maxS curS =
        streakLoop (s + (j : Int)) rest maxS (curS + j) := by
  induction j with
  | zero => intro s rest maxS curS; simp [chainL]
  | succ j ih =>
    intro s rest maxS curS
    have h1 : chainL (s + 1) (j + 1) ++ rest =
        (s + 1) :: (chainL (s + 1 + 1) j ++ rest) := by
      simp [chainL]
    rw [h1]
    simp only [streakLoop]
    rw [if_pos (show s + 1 - s = 1 by ring)]
    rw [ih (s + 1) rest maxS (curS + 1)]
    have e1 : s + 1 + (j : Int) = s + ((j + 1 : Nat) : Int) := by push_cast; ring
    have e2 : curS + 1 + j = curS + (j + 1) := by omega
    rw [e1, e2]

/-- Helper: if the scanned list contains a block of `j + 1` consecutive
dates, the scan result is at least `j + 1`, from any start state whose
running streak is at least 1. -/
theorem streakLoop_run_le (s : Int) (j : Nat) (b : List Int) :
    ∀ (a : List Int) (prev : Int) (maxS curS : Nat), 1 ≤ curS →
      j + 1 ≤ streakLoop prev (a ++ s :: (chainL (s + 1) j ++ b)) maxS curS := by
  intro a
  induction a with
  | nil =>
    intro prev maxS curS hc
    simp only [List.nil_append]
    obtain ⟨m', c', heq, hc'⟩ :=
      streakLoop_step prev s (chainL (s + 1) j ++ b) maxS curS
    rw [heq, streakLoop_chainL j s b m' c']
    calc j + 1 ≤ c' + j := by omega
      _ ≤ max m' (c' + j) := le_max_right _ _
      _ ≤ streakLoop (s + (j : Int)) b m' (c' + j) :=
          max_le_streakLoop b (s + (j : Int)) m' (c' + j)
  | cons y a' ih =>
    intro prev maxS curS hc
    rw [List.cons_append]
    obtain ⟨m', c', heq, hc'⟩ :=
      streakLoop_step prev y (a' ++ s :: (chainL (s + 1) j ++ b)) maxS curS
    rw [heq]
    exact ih y m' c' hc'

/-- Helper: a block of `j + 1` consecutive dates anywhere in the sorted
list bounds the longest-streak result from below by `j + 1`. -/
theorem longestOf_run_le (a : List Int) (s : Int) (j : Nat) (b : List Int) :
    j + 1 ≤ longestOf (a ++ s :: (chainL (s + 1) j ++ b)) := by
  cases a with
  | nil =>
    simp only [List.nil_append, longestOf]
    rw [streakLoop_chainL j s b 0 1]
    calc j + 1 ≤ max 0 (1 + j) := by omega
      _ ≤ streakLoop (s + (j : Int)) b 0 (1 + j) :=
          max_le_streakLoop b (s + (j : Int)) 0 (1 + j)
  | cons d a' =>
    rw [List.cons_append]
    simp only [longestOf]
    exact streakLoop_run_le s j b a' d 0 1 le_rfl

/-- Helper: in a strictly sorted list whose elements all exceed `s` and
which contains `s + 1, ..., s + j`, those dates form a prefix block. -/
theorem sorted_chainL_decomp (j : Nat) : ∀ (s : Int) (r : List Int),
    List.Sorted (· < ·) r → (∀ e ∈ r, s < e) →
    (∀ i : Nat, i < j → s + 1 + (i : Int) ∈ r) →
    ∃ b, r = chainL (s + 1) j ++ b := by
  induction j with
  | zero => intro s r _ _ _; exact ⟨r, rfl⟩
  | succ j ih =>
    intro s r hsort hgt hmem
    have h0 : s + 1 ∈ r := by
      have := hmem 0 (by omega)
      simpa using this
    cases r with
    | nil => simp at h0
    | cons h t =>
      have hh : h = s + 1 := by
        rcases List.mem_cons.mp h0 with h1 | h1
        · exact h1.symm
        · have h2 : h < s + 1 := (List.sorted_cons.mp hsort).1 _ h1
          have h3 : s < h := hgt h (List.mem_cons_self h t)
          omega
      subst hh
      have hsort' : List.Sorted (· < ·) t := (List.sorted_cons.mp hsort).2
      have hgt' : ∀ e ∈ t, s + 1 < e := fun e he =>
        (List.sorted_cons.mp hsort).1 e he
      have hmem' : ∀ i : Nat, i < j → s + 1 + 1 + (i : Int) ∈ t := by
        intro i hi
        have hm := hmem (i + 1) (by omega)
        have harith : s + 1 + ((i + 1 : Nat) : Int) = s + 1 + 1 + (i : Int) := by
          push_cast
          ring
        rw [harith] at hm
        rcases List.mem_cons.mp hm with h1 | h1
        · omega
        · exact h1
      obtain ⟨b, hb⟩ := ih (s + 1) t hsort' hgt' hmem'
      exact ⟨b, by rw [chainL, List.cons_append, hb]⟩

/-- Helper: every day offset counted by the current-streak walk satisfies
the walk's condition (present with a positive count). -/
theorem runFrom_posAt (m : DailyCount) (now : Int) :
    ∀ (fuel i j : Nat), j < runFrom m now i fuel →
      posAt m (now - ((i + j : Nat) : Int)) = true := by
  intro fuel
  induction fuel with
  | zero =>
    intro i j h
    simp only [runFrom] at h
    omega
  | succ fuel ih =>
    intro i j h
    simp only [runFrom] at h
    by_cases hp : posAt m (now - (i : Int)) = true
    · rw [if_pos hp] at h
      cases j with
      | zero => simpa using hp
      | succ j' =>
        have hj' := ih (i + 1) j' (by omega)
        have harith : (i + 1) + j' = i + (j' + 1) := by omega
        rwa [harith] at hj'
    · rw [if_neg hp] at h
      omega

/-- Helper: a date accepted by the current-streak walk's condition is a
key of the mapping. -/
theorem posAt_mem_keys (m : DailyCount) (d : Int) (h : posAt m d = true) :
    d ∈ keys m := by
  unfold posAt lookup at h
  cases hf : m.find? fun p => decide (p.1 = d) with
  | none => rw [hf] at h; simp at h
  | some q =>
    have h1 : q.1 = d := by
      have hq := List.find?_some hf
      simpa using hq
    have h2 : q ∈ m := List.mem_of_find?_eq_some hf
    rw [← h1]
    exact List.mem_map_of_mem Prod.fst h2

/-- C4: for every nonempty daily-count mapping, the longest streak is at
least the current streak.  The current streak counts a run of `k`
consecutive dates all present (with positive counts) in the mapping;
these dates occupy a contiguous block of the sorted key list, and any
block of `k` consecutive dates forces the longest-streak scan to return
at least `k`. -/
theorem c4_longest_ge_current (m : DailyCount) (now : Int) (hne : m ≠ [])
    (hnd : (keys m).Nodup) :
    calculate_current_streak m now ≤ calculate_longest_streak m := by
  set k := calculate_current_streak m now with hk
  rcases Nat.eq_zero_or_pos k with hk0 | hk1
  · omega
  · have hkrun : runFrom m now 0 30 = k := by
      rw [hk]
      unfold calculate_current_streak
      rw [if_neg hne]
    have hpos : ∀ j : Nat, j < k → posAt m (now - (j : Int)) = true := by
      intro j hj
      have hout := runFrom_posAt m now 30 0 j (by omega)
      simpa using hout
    have hmemk : ∀ j : Nat, j < k → (now - (j : Int)) ∈ keys m :=
      fun j hj => posAt_mem_keys m _ (hpos j hj)
    set l := List.insertionSort (· ≤ ·) (keys m) with hl
    have hperm : l.Perm (keys m) := List.perm_insertionSort _ _
    have hndl : l.Nodup := hperm.nodup_iff.mpr hnd
    have hsle : List.Sorted (· ≤ ·) l := List.sorted_insertionSort _ _
    have hslt : List.Sorted (· < ·) l := hsle.lt_of_le hndl
    have hmeml : ∀ j : Nat, j < k → (now - (j : Int)) ∈ l :=
      fun j hj => hperm.mem_iff.mpr (hmemk j hj)
    set s : Int := now - ((k : Int) - 1) with hs
    have hsmem : s ∈ l := by
      have hm := hmeml (k - 1) (by omega)
      have harith : now - ((k - 1 : Nat) : Int) = s := by
        rw [hs]
        omega
      rwa [harith] at hm
    obtain ⟨a, r, hlar⟩ := List.append_of_mem hsmem
    have hpw : List.Pairwise (· < ·) (a ++ s :: r) := by
      rw [← hlar]
      exact hslt
    rw [List.pairwise_append] at hpw
    have hsr : List.Sorted (· < ·) r := (List.pairwise_cons.mp hpw.2.1).2
    have hgtr : ∀ e ∈ r, s < e := (List.pairwise_cons.mp hpw.2.1).1
    have halt : ∀ x ∈ a, x < s := fun x hx =>
      hpw.2.2 x hx s (List.mem_cons_self _ _)
    have hrun : ∀ i : Nat, i < k - 1 → s + 1 + (i : Int) ∈ r := by
      intro i hi
      have hm := hmeml (k - 2 - i) (by omega)
      have harith : now - ((k - 2 - i : Nat) : Int) = s + 1 + (i : Int) := by
        rw [hs]
        omega
      rw [harith, hlar] at hm
      rcases List.mem_append.mp hm with h1 | h1
      · exact absurd (halt _ h1) (by omega)
      · rcases List.mem_cons.mp h1 with h1 | h1
        · exact absurd h1 (by omega)
        · exact h1
    obtain ⟨b, hbr⟩ := sorted_chainL_decomp (k - 1) s r hsr hgtr hrun
    have hfinal : (k - 1) + 1 ≤ longestOf (a ++ s :: r) := by
      rw [hbr]
      exact longestOf_run_le a s (k - 1) b
    have hlongest : calculate_longest_streak m = longestOf l := by
      unfold calculate_longest_streak
      rw [if_neg hne, ← hl]
    rw [hlar] at hlongest
    omega

/-- C4 witness: the nonempty two-day mapping Jan 4 - Jan 5, 2025 with
today = 2025-01-05 has current streak 2 and longest streak 2. -/
theorem c4_longest_ge_current_witness :
    ([((20092 : Int), 1), ((20093 : Int), 4)] : DailyCount) ≠ [] ∧
    (keys [((20092 : Int), 1), ((20093 : Int), 4)]).Nodup ∧
    calculate_current_streak [((20092 : Int), 1), ((20093 : Int), 4)] 20093 ≤
      calculate_longest_streak [((20092 : Int), 1), ((20093 : Int), 4)] :=
  ⟨by decide, by decide,
   c4_longest_ge_current [(20092, 1), (20093, 4)] 20093 (by decide) (by decide)⟩
